import Mathlib

/-!
Verification of the miner-monitoring repository core against its
specification.  The Python sources are shallowly embedded: Python values
are modelled by `PyVal` (numbers as exact rationals), fallible code by
`Except String`, and every translated function mirrors the corresponding
Python function line by line.  External effects (sockets, the thread
pool, the database) are passed in as explicit parameters, so each
embedded function is the pure core of the source function.
-/

/-- Model of a Python/JSON value as it appears in device responses.
Python `None` is `null`; `int` and `float` are collapsed into exact
rationals (`num`); dictionaries are association lists keyed by strings,
which is all the sources ever use. -/
inductive PyVal where
  | null
  | bool (b : Bool)
  | num (q : ℚ)
  | str (s : String)
  | list (xs : List PyVal)
  | dict (fields : List (String × PyVal))

/-- Python dictionary lookup (`d[k]` / `k in d`): first binding wins,
matching the unique-key invariant of Python dicts. -/
def dictLookup : List (String × PyVal) → String → Option PyVal
  | [], _ => Option.none
  | (k, v) :: rest, key => if k = key then some v else dictLookup rest key

/-- Python `k in xs` for a list: membership tests equality with each
element; only string elements can equal the string key. -/
def listHasStr : List PyVal → String → Bool
  | [], _ => false
  | PyVal.str s :: rest, k => s == k || listHasStr rest k
  | _ :: rest, k => listHasStr rest k

/-- Python truthiness (`if x:`). -/
def pyTruthy : PyVal → Bool
  | PyVal.null => false
  | PyVal.bool b => b
  | PyVal.num q => decide (q ≠ 0)
  | PyVal.str s => s ≠ ""
  | PyVal.list xs => !xs.isEmpty
  | PyVal.dict d => !d.isEmpty

/-- Python `len(x)`; `Option.none` models the `TypeError` raised for
objects without a length (numbers, booleans, `None`). -/
def pyLen : PyVal → Option ℕ
  | PyVal.str s => some s.data.length
  | PyVal.list xs => some xs.length
  | PyVal.dict d => some d.length
  | _ => Option.none

/-- Splits a character list at every separator, keeping empty pieces,
matching Python `str.split(sep)`. -/
def splitOnChar (p : Char → Bool) : List Char → List Char → List (List Char)
  | [], acc => [acc.reverse]
  | c :: rest, acc =>
    if p c then acc.reverse :: splitOnChar p rest []
    else splitOnChar p rest (c :: acc)

/-- String split on a character predicate, keeping empty pieces
(Python `str.split(sep)` with an explicit separator). -/
def strSplit (s : String) (p : Char → Bool) : List String :=
  (splitOnChar p s.data []).map fun cs => String.mk cs

/-- Python `str.split()` with no argument: split on whitespace runs and
drop empty tokens. -/
def strSplitWs (s : String) : List String :=
  (strSplit s Char.isWhitespace).filter fun t => t ≠ ""

/-- ASCII lower-casing of one character (Python `str.lower` on the ASCII
metadata strings the sources match against). -/
def charLower (c : Char) : Char :=
  if 'A' ≤ c ∧ c ≤ 'Z' then Char.ofNat (c.toNat + 32) else c

/-- Python `str.lower()`. -/
def strLower (s : String) : String := String.mk (s.data.map charLower)

/-- Python substring test `needle in hay`. -/
def strContainsSub (hay needle : String) : Bool :=
  (List.range (hay.data.length + 1)).any fun i =>
    ((hay.data.drop i).take needle.data.length) == needle.data

/-- Value of a list of decimal digit characters. -/
def digitsToNat (cs : List Char) : ℕ :=
  cs.foldl (fun a c => a * 10 + (c.toNat - 48)) 0

/-- Python `str.isdigit()` restricted to ASCII: non-empty and all
characters decimal digits. -/
def strIsDigit (s : String) : Bool :=
  s.data ≠ [] && s.data.all Char.isDigit

/-- Strips leading and trailing whitespace (Python `int`/`float` accept
surrounding whitespace). -/
def stripWs (cs : List Char) : List Char :=
  ((cs.dropWhile Char.isWhitespace).reverse.dropWhile Char.isWhitespace).reverse

/-- Python `int(s)` on a string: optional sign then decimal digits.
`Option.none` models `ValueError`.  (Underscore separators, accepted by
Python 3.6+, are not modelled; no caller feeds them.) -/
def parseIntStr (s : String) : Option ℤ :=
  match stripWs s.data with
  | [] => Option.none
  | c :: rest =>
    let (sign, body) : ℤ × List Char :=
      if c = '-' then (-1, rest) else if c = '+' then (1, rest) else (1, c :: rest)
    if body ≠ [] && body.all Char.isDigit then some (sign * digitsToNat body)
    else Option.none

/-- Parses the digit body of a float literal: `ip [. fp] [e/E [sign] d]`
with at least one digit in `ip ++ fp`. -/
def parseFloatBody (cs : List Char) : Option ℚ :=
  let ip := cs.takeWhile Char.isDigit
  let rest1 := cs.dropWhile Char.isDigit
  let (fp, rest2) : List Char × List Char :=
    match rest1 with
    | '.' :: t => (t.takeWhile Char.isDigit, t.dropWhile Char.isDigit)
    | _ => ([], rest1)
  if ip = [] ∧ fp = [] then Option.none
  else
    let mantissa : ℚ := (digitsToNat ip : ℚ) + (digitsToNat fp : ℚ) / (10 : ℚ) ^ fp.length
    match rest2 with
    | [] => some mantissa
    | e :: t =>
      if e = 'e' ∨ e = 'E' then
        let (esign, t2) : ℤ × List Char :=
          match t with
          | '-' :: u => (-1, u)
          | '+' :: u => (1, u)
          | _ => (1, t)
        if t2 ≠ [] && t2.all Char.isDigit then
          some (mantissa * (10 : ℚ) ^ (esign * (digitsToNat t2 : ℤ)))
        else Option.none
      else Option.none

/-- Python `float(s)` on a string: optional whitespace, optional sign,
then a decimal literal with optional fraction and exponent.
`Option.none` models `ValueError`.  (The `inf`/`nan` literals and
underscore separators are not modelled; no caller feeds them.) -/
def parseFloatStr (s : String) : Option ℚ :=
  match stripWs s.data with
  | [] => Option.none
  | c :: rest =>
    if c = '-' then (parseFloatBody rest).map (fun q => -q)
    else if c = '+' then parseFloatBody rest
    else parseFloatBody (c :: rest)

/-- Truncation toward zero, the behavior of Python `int(float)`. -/
def ratTrunc (q : ℚ) : ℤ := if 0 ≤ q then ⌊q⌋ else -⌊-q⌋

/-- Python `float(x)` on an arbitrary value: numbers pass through, bools
become 0/1, strings are parsed; everything else raises (`Option.none`
models the `TypeError`/`ValueError`). -/
def pyFloat : PyVal → Option ℚ
  | PyVal.num q => some q
  | PyVal.bool b => some (if b then 1 else 0)
  | PyVal.str s => parseFloatStr s
  | _ => Option.none

/-- Python `int(x)`: numbers truncate toward zero, bools become 0/1,
strings must be integer literals; everything else raises. -/
def pyInt : PyVal → Option ℤ
  | PyVal.num q => some (ratTrunc q)
  | PyVal.bool b => some (if b then 1 else 0)
  | PyVal.str s => parseIntStr s
  | _ => Option.none

/-!
Embedding of `src/miner_client.py`, functions `parse_summary_data`
(lines 129-149) and `parse_stats_data` (lines 152-188).  A Python return
of the empty dict `{}` is modelled as `.ok Option.none`; an uncaught
exception as `.error` with the exception class name.
-/

/-- Result dict built by `parse_summary_data` (the `raw_data` entry is
the selected payload). -/
structure SummaryRec where
  hash_rate : ℚ
  accepted_shares : ℤ
  rejected_shares : ℤ
  pool_switches : ℤ
  raw_data : List (String × PyVal)

/-- Result dict built by `parse_stats_data`. -/
structure StatsRec where
  temperature : Option ℚ
  fan_speed : Option ℤ
  power_consumption : Option ℚ
  raw_data : PyVal

/-- Python attribute access `x.get(k, dflt)`: only dicts have `.get`;
anything else raises `AttributeError`. -/
def pyGet (v : PyVal) (k : String) (dflt : PyVal) : Except String PyVal :=
  match v with
  | PyVal.dict d => Except.ok ((dictLookup d k).getD dflt)
  | _ => Except.error "AttributeError"

/-- Python `k in x`: key membership for dicts, substring test for
strings, element equality for lists; numbers, bools and `None` raise
`TypeError`. -/
def keyInExc (v : PyVal) (k : String) : Except String Bool :=
  match v with
  | PyVal.dict d => Except.ok (dictLookup d k).isSome
  | PyVal.str s => Except.ok (strContainsSub s k)
  | PyVal.list xs => Except.ok (listHasStr xs k)
  | _ => Except.error "TypeError"

/-- Coerces the selected summary payload to a dict.  Lines 136-148 of
`parse_summary_data` apply `in` and `.get` to it; for every non-dict
payload one of those raises (`in` raises `TypeError` on numbers, bools
and `None`; `.get` raises `AttributeError` on strings and lists), so a
non-dict payload always aborts the parse. -/
def asDict : PyVal → Except String (List (String × PyVal))
  | PyVal.dict d => Except.ok d
  | _ => Except.error "TypeError"

/-- Lines 137-141: prefer `"GHS 5s"`, fall back to `"GHS av"`, default
0.0; `float` of a present non-numeric value raises. -/
def summaryHashRate (sd : List (String × PyVal)) : Except String ℚ :=
  match dictLookup sd "GHS 5s" with
  | some v =>
    match pyFloat v with
    | some q => Except.ok q
    | Option.none => Except.error "ValueError"
  | Option.none =>
    match dictLookup sd "GHS av" with
    | some v =>
      match pyFloat v with
      | some q => Except.ok q
      | Option.none => Except.error "ValueError"
    | Option.none => Except.ok 0

/-- Lines 145-147: `int(summary_data.get(k, 0))` — missing keys default
to 0, a present non-numeric value raises `ValueError`. -/
def intField (sd : List (String × PyVal)) (k : String) : Except String ℤ :=
  match pyInt ((dictLookup sd k).getD (PyVal.num 0)) with
  | some z => Except.ok z
  | Option.none => Except.error "ValueError"

/-- Lines 136-149 of `parse_summary_data` applied to the selected
payload `x` (the `summary["SUMMARY"][0]` object). -/
def parseSummaryPayload (x : PyVal) : Except String (Option SummaryRec) :=
  match asDict x with
  | Except.error e => Except.error e
  | Except.ok sd =>
    match summaryHashRate sd with
    | Except.error e => Except.error e
    | Except.ok hr =>
      match intField sd "Accepted" with
      | Except.error e => Except.error e
      | Except.ok a =>
        match intField sd "Rejected" with
        | Except.error e => Except.error e
        | Except.ok rj =>
          match intField sd "Pool Switches" with
          | Except.error e => Except.error e
          | Except.ok ps => Except.ok (some (SummaryRec.mk hr a rj ps sd))

/-- Embedding of `parse_summary_data` (`src/miner_client.py` 129-149).
Line 131 returns `{}` for a falsy argument or a missing `"SUMMARY"` key
(for truthy non-dict arguments `"SUMMARY" not in summary` is a substring
or membership test for strings and lists and raises `TypeError`
otherwise; when the test finds the key, line 134 `summary.get` raises
`AttributeError`).  Line 134 selects `summary["SUMMARY"][0]` when the
value is a list — raising `IndexError` on an empty list — and the empty
dict `{}` otherwise, so a non-list `"SUMMARY"` value yields a record of
pure defaults. -/
def parse_summary_data (summary : PyVal) : Except String (Option SummaryRec) :=
  if pyTruthy summary = false then Except.ok Option.none
  else
    match summary with
    | PyVal.dict d =>
      match dictLookup d "SUMMARY" with
      | Option.none => Except.ok Option.none
      | some (PyVal.list []) => Except.error "IndexError"
      | some (PyVal.list (x :: _)) => parseSummaryPayload x
      | some _ => Except.ok (some (SummaryRec.mk 0 0 0 0 []))
    | PyVal.str s =>
      if strContainsSub s "SUMMARY" then Except.error "AttributeError"
      else Except.ok Option.none
    | PyVal.list xs =>
      if listHasStr xs "SUMMARY" then Except.error "AttributeError"
      else Except.ok Option.none
    | _ => Except.error "TypeError"

/-- Extracts the rationals of an all-numeric value list
(`Option.none` when some element is not a number). -/
def extractNums : List PyVal → Option (List ℚ)
  | [] => some []
  | PyVal.num q :: rest => (extractNums rest).map fun t => q :: t
  | _ => Option.none

/-- Extracts the strings of an all-string value list. -/
def extractStrs : List PyVal → Option (List String)
  | [] => some []
  | PyVal.str s :: rest => (extractStrs rest).map fun t => s :: t
  | _ => Option.none

/-- Python `max(xs)` over a list: numeric lists take the rational
maximum, string lists the lexicographic maximum; the empty list raises
`ValueError` and mixed element types raise `TypeError` (comparison of
bools with numbers is not modelled — no claim exercises it). -/
def pyListMax (xs : List PyVal) : Except String PyVal :=
  match extractNums xs with
  | some (q :: t) => Except.ok (PyVal.num (t.foldl max q))
  | some [] => Except.error "ValueError"
  | Option.none =>
    match extractStrs xs with
    | some (s :: t) => Except.ok (PyVal.str (t.foldl (fun a b => if a < b then b else a) s))
    | some [] => Except.error "ValueError"
    | Option.none => Except.error "TypeError"

/-- Python `xs[-1]`: last element of a list, last character of a string;
a (string-keyed) dict raises `KeyError` for the key `-1`, other types
raise `TypeError`. -/
def pyLastIndex : PyVal → Except String PyVal
  | PyVal.list xs =>
    match xs.getLast? with
    | some x => Except.ok x
    | Option.none => Except.error "IndexError"
  | PyVal.str s =>
    match s.data.getLast? with
    | some c => Except.ok (PyVal.str (String.mk [c]))
    | Option.none => Except.error "IndexError"
  | PyVal.dict _ => Except.error "KeyError"
  | _ => Except.error "TypeError"

/-- Lines 165-169 of `parse_stats_data`: the temperature field.  Note
line 168 `if temps and len(temps) > 0:` — a truthy number has no `len`
and raises `TypeError` — and line 169 applies `float` directly to a
non-list value, so a space-delimited string raises `ValueError`. -/
def statsTemperature (latest : PyVal) : Except String (Option ℚ) :=
  match keyInExc latest "temperature" with
  | Except.error e => Except.error e
  | Except.ok false => Except.ok Option.none
  | Except.ok true =>
    match pyGet latest "temperature" (PyVal.list []) with
    | Except.error e => Except.error e
    | Except.ok temps =>
      if pyTruthy temps = false then Except.ok Option.none
      else
        match pyLen temps with
        | Option.none => Except.error "TypeError"
        | some n =>
          if n = 0 then Except.ok Option.none
          else
            match temps with
            | PyVal.list xs =>
              match pyListMax xs with
              | Except.error e => Except.error e
              | Except.ok m =>
                match pyFloat m with
                | some q => Except.ok (some q)
                | Option.none => Except.error "ValueError"
            | _ =>
              match pyFloat temps with
              | some q => Except.ok (some q)
              | Option.none => Except.error "ValueError"

/-- Lines 172-176 of `parse_stats_data`: the fan field, identical to the
temperature field except that `int` is applied instead of `float`. -/
def statsFan (latest : PyVal) : Except String (Option ℤ) :=
  match keyInExc latest "fan" with
  | Except.error e => Except.error e
  | Except.ok false => Except.ok Option.none
  | Except.ok true =>
    match pyGet latest "fan" (PyVal.list []) with
    | Except.error e => Except.error e
    | Except.ok fans =>
      if pyTruthy fans = false then Except.ok Option.none
      else
        match pyLen fans with
        | Option.none => Except.error "TypeError"
        | some n =>
          if n = 0 then Except.ok Option.none
          else
            match fans with
            | PyVal.list xs =>
              match pyListMax xs with
              | Except.error e => Except.error e
              | Except.ok m =>
                match pyInt m with
                | some z => Except.ok (some z)
                | Option.none => Except.error "ValueError"
            | _ =>
              match pyInt fans with
              | some z => Except.ok (some z)
              | Option.none => Except.error "ValueError"

/-- Lines 179-181 of `parse_stats_data`: `float(latest_stats.get("power", 0))`
whenever the key is present. -/
def statsPower (latest : PyVal) : Except String (Option ℚ) :=
  match keyInExc latest "power" with
  | Except.error e => Except.error e
  | Except.ok false => Except.ok Option.none
  | Except.ok true =>
    match pyGet latest "power" (PyVal.num 0) with
    | Except.error e => Except.error e
    | Except.ok pv =>
      match pyFloat pv with
      | some q => Except.ok (some q)
      | Option.none => Except.error "ValueError"

/-- Embedding of `parse_stats_data` (`src/miner_client.py` 152-188).
Line 154 returns `{}` for a falsy argument or a missing `"STATS"` key;
line 157 `stats.get` raises `AttributeError` on truthy non-dict
arguments whose `in` test found the key; line 158 returns `{}` for a
falsy `"STATS"` value; line 162 takes `stats_list[-1]`. -/
def parse_stats_data (stats : PyVal) : Except String (Option StatsRec) :=
  if pyTruthy stats = false then Except.ok Option.none
  else
    match stats with
    | PyVal.dict d =>
      match dictLookup d "STATS" with
      | Option.none => Except.ok Option.none
      | some sv =>
        if pyTruthy sv = false then Except.ok Option.none
        else
          match pyLastIndex sv with
          | Except.error e => Except.error e
          | Except.ok latest =>
            match statsTemperature latest with
            | Except.error e => Except.error e
            | Except.ok t =>
              match statsFan latest with
              | Except.error e => Except.error e
              | Except.ok f =>
                match statsPower latest with
                | Except.error e => Except.error e
                | Except.ok p => Except.ok (some (StatsRec.mk t f p latest))
    | PyVal.str s =>
      if strContainsSub s "STATS" then Except.error "AttributeError"
      else Except.ok Option.none
    | PyVal.list xs =>
      if listHasStr xs "STATS" then Except.error "AttributeError"
      else Except.ok Option.none
    | _ => Except.error "TypeError"

/-!
Embedding of `src/agent/agent.py`, method `MonitoringAgent.poll_miner`
(lines 87-168).  The network fetches are passed in as values; the
extraction steps (lines 103-150) are embedded as pure functions.
-/

/-- Python `str(x)` as used on telemetry fields (lines 136 and 145).
Strings pass through, integers and the scalar atoms print their Python
form; one level of list is rendered with brackets and comma separators
as Python does, deeper nesting and non-integral floats are approximated
(their rendered tokens contain no digit-only words either way, which is
all the callers inspect). -/
def pyAtomStr : PyVal → String
  | PyVal.null => "None"
  | PyVal.bool b => if b then "True" else "False"
  | PyVal.num q => if q.den = 1 then toString q.num else toString q
  | PyVal.str s => s
  | PyVal.list _ => "[...]"
  | PyVal.dict _ => "\x7b...\x7d"

/-- Python `str(x)` with one level of list rendering. -/
def pyStrOf : PyVal → String
  | PyVal.list xs => "[" ++ String.intercalate ", " (xs.map pyAtomStr) ++ "]"
  | v => pyAtomStr v

/-- Lines 136-139 / 145-148: `str(v).split()`, keep the digit-only
tokens, convert them with `int`, and take the maximum; no token means
the field stays `None`. -/
def agentMaxTokens (v : PyVal) : Option ℕ :=
  let ds := ((strSplitWs (pyStrOf v)).filter strIsDigit).map fun t => digitsToNat t.data
  match ds with
  | [] => Option.none
  | n :: t => some (t.foldl Nat.max n)

/-- Lines 106-110: select the summary payload, accepting both the
single-element-list shape and the bare-object shape; a missing or falsy
`"SUMMARY"` key keeps the whole response, and a non-dict response leaves
the initial `{}`. -/
def agentSummaryPayload (summary : PyVal) : PyVal :=
  match summary with
  | PyVal.dict d =>
    match dictLookup d "SUMMARY" with
    | some sv =>
      if pyTruthy sv then
        match sv with
        | PyVal.list (x :: _) => x
        | _ => sv
      else PyVal.dict d
    | Option.none => PyVal.dict d
  | _ => PyVal.dict []

/-- Lines 112-116: the same selection for the `"STATS"` key. -/
def agentStatsPayload (stats : PyVal) : PyVal :=
  match stats with
  | PyVal.dict d =>
    match dictLookup d "STATS" with
    | some sv =>
      if pyTruthy sv then
        match sv with
        | PyVal.list (x :: _) => x
        | _ => sv
      else PyVal.dict d
    | Option.none => PyVal.dict d
  | _ => PyVal.dict []

/-- Lines 119-124: `float(summary_data["GHS 5s"]) / 1000.0` guarded by a
key test, with `ValueError`/`TypeError` degraded to `None` by the
`try`/`except`. -/
def agentHashRate (sd : List (String × PyVal)) : Option ℚ :=
  match dictLookup sd "GHS 5s" with
  | some v =>
    match pyFloat v with
    | some q => some (q / 1000)
    | Option.none => Option.none
  | Option.none => Option.none

/-- Lines 130-141: the `"temp"` field of the stats payload, only read
when the payload is a dict. -/
def agentTemp : PyVal → Option ℕ
  | PyVal.dict d =>
    match dictLookup d "temp" with
    | some v => agentMaxTokens v
    | Option.none => Option.none
  | _ => Option.none

/-- Lines 143-150: the `"fan"` field, same token scheme as `"temp"`. -/
def agentFan : PyVal → Option ℕ
  | PyVal.dict d =>
    match dictLookup d "fan" with
    | some v => agentMaxTokens v
    | Option.none => Option.none
  | _ => Option.none

/-!
Embedding of `src/app/services/network_scanner.py`.  The TCP probes of
`check_port` and the `summary` fetch of `identify_miner` are passed in
as oracle functions; a client failure (`get_summary` returning `None`,
`src/miner_client.py` lines 72-83) is the value `PyVal.null`.  Thread
completion order (`as_completed`) is abstracted as list order.
-/

/-- One entry of the list returned by `scan_network` (dict literal at
lines 128-135 / 138-145). -/
structure DeviceRecord where
  ip_address : String
  port : ℕ
  manufacturer : Option String
  model : Option String
  is_accessible : Bool
  error : Option String

/-- Lines 40-62 of `identify_miner`: the body inside the `try`, applied
to the fetched summary response.  An `Except.error` models an exception
reaching the `except` handler at line 63. -/
def identifyInner (summary : PyVal) : Except String (Option String × Option String × Bool) :=
  if pyTruthy summary = false then Except.ok (Option.none, Option.none, false)
  else
    match keyInExc summary "Type" with
    | Except.error e => Except.error e
    | Except.ok false => Except.ok (some "Unknown", Option.none, true)
    | Except.ok true =>
      match pyGet summary "Type" (PyVal.str "") with
      | Except.error e => Except.error e
      | Except.ok tv =>
        let typeRaw := pyStrOf tv
        let type_str := strLower typeRaw
        if strContainsSub type_str "whatsminer" || strContainsSub type_str "m" then
          let model : Option String :=
            if strContainsSub type_str "m50" || strContainsSub typeRaw "M50" then some "M50"
            else if strContainsSub type_str "m30" || strContainsSub typeRaw "M30" then some "M30"
            else if strContainsSub type_str "m20" || strContainsSub typeRaw "M20" then some "M20"
            else Option.none
          Except.ok (some "Whatsminer", model, true)
        else Except.ok (some "Unknown", Option.none, true)

/-- Embedding of `identify_miner` (lines 30-67): any exception inside
the `try` is caught and turned into `(None, None, False)`, and a falsy
response falls through to the same final return. -/
def identify_miner (summary : PyVal) : Option String × Option String × Bool :=
  match identifyInner summary with
  | Except.ok r => r
  | Except.error _ => (Option.none, Option.none, false)

/-- Lines 123-145 of `scan_network`: the record appended for one probed
address, from the triple returned by `identify_miner`. -/
def recordOfIdentification (ip : String) (port : ℕ) :
    Option String × Option String × Bool → DeviceRecord
  | (m, mo, true) => DeviceRecord.mk ip port m mo true Option.none
  | (_, _, false) =>
    DeviceRecord.mk ip port Option.none Option.none false
      (some "Could not identify miner type")

/-- Phases 2 and 3 of `scan_network` (lines 96-158): probe every
candidate address, then identify only the addresses whose port was open.
Addresses that fail the probe are never appended to the result. -/
def scan_records (port : ℕ) (respond : String → PyVal)
    (hosts : List String) (portOpen : String → Bool) : List DeviceRecord :=
  (hosts.filter portOpen).map fun ip =>
    recordOfIdentification ip port (identify_miner (respond ip))

/-- Parses one dotted-quad octet; Python's `ipaddress` module rejects
empty pieces, non-digits, values above 255 and leading zeros. -/
def parseOctet (s : String) : Option ℕ :=
  if s.data = [] then Option.none
  else if !(s.data.all Char.isDigit) then Option.none
  else if 1 < s.data.length ∧ s.data.headI = '0' then Option.none
  else if digitsToNat s.data ≤ 255 then some (digitsToNat s.data)
  else Option.none

/-- Parses a dotted-quad IPv4 address to its 32-bit value. -/
def parseIPv4 (s : String) : Option ℕ :=
  match (strSplit s fun c => c = '.').mapM parseOctet with
  | some [a, b, c, d] => some (a * 2 ^ 24 + b * 2 ^ 16 + c * 2 ^ 8 + d)
  | _ => Option.none

/-- Modeled from the documented behavior of Python's
`ipaddress.ip_network` for the address/prefix-length string forms the
repository's callers pass (`"a.b.c.d/n"` or a bare address): returns the
address value and prefix length, `Option.none` for a syntactically
invalid string (which makes `ip_network` raise `ValueError`).  The
netmask and host-mask forms are not modelled — no caller uses them. -/
def parseCIDR (s : String) : Option (ℕ × ℕ) :=
  match strSplit s fun c => c = '/' with
  | [ip] => (parseIPv4 ip).map fun a => (a, 32)
  | [ip, p] =>
    match parseIPv4 ip with
    | some a =>
      if p.data ≠ [] && p.data.all Char.isDigit then
        if digitsToNat p.data ≤ 32 then some (a, digitsToNat p.data)
        else Option.none
      else Option.none
    | Option.none => Option.none
  | _ => Option.none

/-- Clears the host bits (`ip_network(..., strict=False)` masks the
address down to the network address). -/
def maskAddr (a n : ℕ) : ℕ := a / 2 ^ (32 - n) * 2 ^ (32 - n)

/-- `ip_network(...).hosts()` for IPv4: every address of the block except
the network and broadcast addresses; /31 yields both addresses and /32
the single address. -/
def hostsOf (a n : ℕ) : List ℕ :=
  let net := maskAddr a n
  if 32 ≤ n then [net]
  else if n = 31 then [net, net + 1]
  else (List.range (2 ^ (32 - n) - 2)).map fun i => net + 1 + i

/-- Renders a 32-bit address value back to dotted-quad form
(`str(ip)` at line 92). -/
def ipToStr (a : ℕ) : String :=
  toString (a / 2 ^ 24 % 256) ++ "." ++ toString (a / 2 ^ 16 % 256) ++ "." ++
    toString (a / 2 ^ 8 % 256) ++ "." ++ toString (a % 256)

/-- Embedding of `scan_network` (lines 70-158): lines 83-86 validate the
CIDR string and raise `ValueError` before any probe; line 92 enumerates
the usable hosts; the rest probes and identifies.  The network oracles
are arguments, so the error return provably does not depend on them. -/
def scan_network (network : String) (port : ℕ)
    (portOpen : String → Bool) (respond : String → PyVal) :
    Except String (List DeviceRecord) :=
  match parseCIDR network with
  | Option.none => Except.error "Invalid network format"
  | some (a, n) =>
    Except.ok (scan_records port respond ((hostsOf a n).map ipToStr) portOpen)

/-!
Embedding of `src/app/services/monitoring.py`, methods
`MonitoringService.poll_miner` (lines 32-99) and
`MonitoringService.poll_all_miners` (lines 101-124).  The client fetch
and the database are abstracted into a per-device environment: the two
raw responses (with `PyVal.null` standing for a wire-level failure, the
client's `None` return), whether the re-read at line 61 finds the miner,
and whether the commit at line 86 succeeds.
-/

/-- Outcome of the externally visible steps of one `poll_miner` call. -/
structure PollEnv where
  summaryResp : PyVal
  statsResp : PyVal
  inRegistry : Bool
  dbCommitOk : Bool

/-- `WhatsminerClient.get_all_data` (`src/miner_client.py` 109-126):
always returns the five-key dict — a failed command contributes `None`
as its value, and the `try` body cannot raise — so the `None` return of
the `except` arm is dead and the result is always truthy. -/
def get_all_data (e : PollEnv) : Option (PyVal × PyVal) :=
  some (e.summaryResp, e.statsResp)

/-- Lines 35-95 of `poll_miner`, the body inside the outer `try`:
`Except.error` models an exception reaching the handler at line 97
(parse errors from lines 53-54, or the database error re-raised at
line 92). -/
def pollMinerInner (e : PollEnv) : Except String Bool :=
  match get_all_data e with
  | Option.none => Except.ok false
  | some (s, st) =>
    match parse_summary_data s with
    | Except.error err => Except.error err
    | Except.ok _ =>
      match parse_stats_data st with
      | Except.error err => Except.error err
      | Except.ok _ =>
        if e.inRegistry = false then Except.ok false
        else if e.dbCommitOk = false then Except.error "DatabaseError"
        else Except.ok true

/-- Embedding of `poll_miner`: the outer `except Exception` (line 97)
converts every escaped exception into a `False` return, so the method
is total and never raises across the device boundary. -/
def poll_miner (e : PollEnv) : Bool :=
  match pollMinerInner e with
  | Except.ok b => b
  | Except.error _ => false

/-- Embedding of `poll_all_miners` (lines 101-124): gather the
per-device booleans, count the `True` results as successes and the rest
as failures. -/
def poll_all_miners (es : List PollEnv) : ℕ × ℕ :=
  let successful := (es.map poll_miner).count true
  (successful, es.length - successful)

/-!
Embedding of `WhatsminerClient._send_command` (`src/miner_client.py`
lines 19-83).  The socket is abstracted as a connect outcome plus the
sequence of `recv` outcomes; `json.loads` is abstracted as a
deterministic parse oracle `jparse` (`Option.none` models
`json.JSONDecodeError`).
-/

/-- One outcome of `sock.recv(4096)`: a data chunk (the empty chunk
signals the peer closed the connection) or a read timeout. -/
inductive ReadEvent where
  | chunk (s : String)
  | timedOut

/-- Outcome of `sock.connect`. -/
inductive ConnectResult where
  | ok
  | refused
  | connectTimedOut

/-- The read loop of lines 39-67 with accumulated buffer `buf`:
append each chunk and try to parse the whole buffer (lines 44-51);
an empty chunk breaks to the final-parse block at lines 61-67; a read
timeout with data retries one parse and otherwise returns `None`
(lines 52-59; the parse retried after the `break` at line 58 sees the
same buffer and fails the same way).  Exhaustion of the event list is
treated as a closed connection. -/
def recvLoop (jparse : String → Option PyVal) :
    List ReadEvent → String → Option PyVal
  | [], buf => if buf = "" then Option.none else jparse buf
  | ReadEvent.chunk c :: rest, buf =>
    if c = "" then (if buf = "" then Option.none else jparse buf)
    else
      match jparse (buf ++ c) with
      | some d => some d
      | Option.none => recvLoop jparse rest (buf ++ c)
  | ReadEvent.timedOut :: _, buf =>
    if buf = "" then Option.none
    else
      match jparse buf with
      | some d => some d
      | Option.none => Option.none

/-- Embedding of `_send_command`: a connect failure (refusal or connect
timeout, lines 72-77) is caught and returns `None`; an established
connection runs the read loop. -/
def send_command (jparse : String → Option PyVal)
    (c : ConnectResult) (evs : List ReadEvent) : Option PyVal :=
  match c with
  | ConnectResult.ok => recvLoop jparse evs ""
  | _ => Option.none

/-- All numeric readings of a scalar value are nonnegative: whatever
`float` or `int` would extract from it is at least 0 (vacuously true
when they raise). -/
def fieldOk (v : PyVal) : Bool :=
  ((pyFloat v).all fun q => decide (0 ≤ q)) &&
    ((pyInt v).all fun z => decide (0 ≤ z))

/-- A device-reported field value is nonnegative: the value itself and,
for a list, every element. -/
def valOk (v : PyVal) : Bool :=
  fieldOk v &&
    (match v with
     | PyVal.list xs => xs.all fieldOk
     | _ => true)

/-!
Helper lemmas shared by several claim proofs.
-/

/-- A successful dictionary lookup returns a binding of the dict. -/
theorem dictLookup_mem {sd : List (String × PyVal)} {k : String} {v : PyVal}
    (h : dictLookup sd k = some v) : (k, v) ∈ sd := by
  induction sd with
  | nil => simp [dictLookup] at h
  | cons kv rest ih =>
    obtain ⟨k', v'⟩ := kv
    by_cases hk : k' = k
    · subst hk
      simp [dictLookup] at h
      subst h
      exact List.mem_cons_self _ _
    · simp [dictLookup, hk] at h
      exact List.mem_cons_of_mem _ (ih h)

/-- A maximum fold over nonnegative rationals stays nonnegative. -/
theorem foldl_max_nonneg :
    ∀ (t : List ℚ) (q : ℚ), 0 ≤ q → (∀ x ∈ t, 0 ≤ x) → 0 ≤ t.foldl max q := by
  intro t
  induction t with
  | nil => intro q hq _; simpa using hq
  | cons a t ih =>
    intro q hq hall
    simp only [List.foldl_cons]
    exact ih (max q a) (le_trans hq (le_max_left q a))
      fun x hx => hall x (List.mem_cons_of_mem _ hx)

/-- The lexicographic-maximum fold returns its seed or a list element. -/
theorem foldl_pick_mem :
    ∀ (t : List String) (s : String),
      t.foldl (fun a b => if a < b then b else a) s = s ∨
      t.foldl (fun a b => if a < b then b else a) s ∈ t := by
  intro t
  induction t with
  | nil => intro s; left; rfl
  | cons a t ih =>
    intro s
    simp only [List.foldl_cons]
    rcases ih (if s < a then a else s) with h | h
    · rw [h]
      by_cases hsa : s < a
      · right; simp [hsa]
      · left; simp [hsa]
    · right; exact List.mem_cons_of_mem _ h

/-- Counting both boolean values accounts for the whole list. -/
theorem count_true_add_count_false (l : List Bool) :
    l.count true + l.count false = l.length := by
  induction l with
  | nil => simp
  | cons b t ih => cases b <;> simp [List.count_cons] <;> omega

/-!
Claim theorems.
-/

/-- Counterexample to claim C1: the central-service `parse_summary_data`
on the payload with "GHS 5s": "1234.5" stores the raw gigahash value
1234.5 (= 2469/2) as the hash rate — it never divides by 1000 — so at
that parsing site the claimed canonical result 1.2345 does not hold. -/
theorem C1_counterexample :
    parse_summary_data
        (PyVal.dict [("SUMMARY", PyVal.list [PyVal.dict
          [("GHS 5s", PyVal.str "1234.5")]])]) =
      Except.ok (some (SummaryRec.mk (2469 / 2) 0 0 0
        [("GHS 5s", PyVal.str "1234.5")])) ∧
    ((2469 / 2 : ℚ) ≠ 1.2345) := by
  constructor
  · simp [parse_summary_data, pyTruthy, dictLookup, parseSummaryPayload, asDict,
      summaryHashRate, intField, pyInt, pyFloat, parseFloatStr, stripWs,
      parseFloatBody, digitsToNat, ratTrunc]
    norm_num
  · norm_num

/-- Claim C1 as amended: both parsers prefer the short-window "GHS 5s"
field over the long-window "GHS av" average whenever it is present with
a numeric value, but only the agent extraction converts to the
canonical TH/s unit by dividing by 1000 — there "1234.5" parses to
exactly 1.2345 — while the central-service selection returns the raw
GH/s value undivided. -/
theorem C1_hash_rate_conversion (sd : List (String × PyVal)) (v : PyVal) (q : ℚ)
    (h1 : dictLookup sd "GHS 5s" = some v) (h2 : pyFloat v = some q) :
    agentHashRate sd = some (q / 1000) ∧
    summaryHashRate sd = Except.ok q ∧
    agentHashRate [("GHS 5s", PyVal.str "1234.5"), ("GHS av", PyVal.str "9999")] =
      some 1.2345 := by
  refine ⟨?_, ?_, ?_⟩
  · simp [agentHashRate, h1, h2]
  · simp [summaryHashRate, h1, h2]
  · simp [agentHashRate, dictLookup, pyFloat, parseFloatStr, stripWs, parseFloatBody,
      digitsToNat]
    norm_num

/-- Witness for C1 at a concrete payload. -/
theorem C1_hash_rate_conversion_witness :
    agentHashRate [("GHS 5s", PyVal.num 2)] = some (2 / 1000) :=
  (C1_hash_rate_conversion [("GHS 5s", PyVal.num 2)] (PyVal.num 2) 2
    (by simp [dictLookup]) (by simp [pyFloat])).1

/-- Helper for claim C10: if no buffer ever parses, the read loop
returns `None` whatever the events are. -/
theorem recvLoop_unparseable (jparse : String → Option PyVal)
    (hj : ∀ s, jparse s = Option.none) :
    ∀ (evs : List ReadEvent) (buf : String), recvLoop jparse evs buf = Option.none := by
  intro evs
  induction evs with
  | nil => intro buf; simp [recvLoop, hj]
  | cons ev rest ih =>
    intro buf
    cases ev with
    | chunk c =>
      by_cases hc : c = ""
      · simp [recvLoop, hc, hj]
      · simp [recvLoop, hc, hj, ih]
    | timedOut => simp [recvLoop, hj]

/-- Claim C10: every failure outcome of one request/response exchange —
connection refused, connect timeout, read timeout on an empty buffer, or
a buffer that never parses — makes `_send_command` return `None`, so the
failure kinds are indistinguishable to callers, while a successful parse
returns the parsed object. -/
theorem C10_send_command_none_on_failure
    (jparse : String → Option PyVal) (evs : List ReadEvent) :
    send_command jparse ConnectResult.refused evs = Option.none ∧
    send_command jparse ConnectResult.connectTimedOut evs = Option.none ∧
    send_command jparse ConnectResult.ok [ReadEvent.timedOut] = Option.none ∧
    ((∀ s, jparse s = Option.none) →
      send_command jparse ConnectResult.ok evs = Option.none) ∧
    (∀ s d, jparse s = some d → s ≠ "" →
      send_command jparse ConnectResult.ok [ReadEvent.chunk s] = some d) := by
  refine ⟨rfl, rfl, by simp [send_command, recvLoop], ?_, ?_⟩
  · intro hj
    exact recvLoop_unparseable jparse hj evs ""
  · intro s d hs hne
    have happ : ("" : String) ++ s = s := by
      cases s
      rfl
    simp [send_command, recvLoop, hne, happ, hs]

/-- Witness for C10 at concrete parse oracles. -/
theorem C10_send_command_none_on_failure_witness :
    send_command (fun _ => Option.none) ConnectResult.refused [] = Option.none ∧
    send_command (fun s => if s = "x" then some PyVal.null else Option.none)
      ConnectResult.ok [ReadEvent.chunk "x"] = some PyVal.null := by
  constructor
  · exact (C10_send_command_none_on_failure (fun _ => Option.none) []).1
  · exact (C10_send_command_none_on_failure
      (fun s => if s = "x" then some PyVal.null else Option.none) []).2.2.2.2
      "x" PyVal.null (by simp) (by simp)

/-- Claim C7: a syntactically valid CIDR of prefix length n < 31
enumerates exactly 2^(32-n) - 2 candidate hosts, and a syntactically
invalid CIDR string makes the scan fail with the validation error before
the probe and identification oracles are ever consulted. -/
theorem C7_cidr_enumeration (s : String) :
    (∀ a n, parseCIDR s = some (a, n) → n < 31 →
      (hostsOf a n).length = 2 ^ (32 - n) - 2) ∧
    (parseCIDR s = Option.none →
      ∀ (port : ℕ) (portOpen : String → Bool) (respond : String → PyVal),
        scan_network s port portOpen respond = Except.error "Invalid network format") := by
  constructor
  · intro a n _ hn
    have h32 : ¬ 32 ≤ n := by omega
    have h31 : ¬ n = 31 := by omega
    simp [hostsOf, h32, h31]
  · intro h port portOpen respond
    simp [scan_network, h]

/-- Witness for C7: a /24 block yields 254 hosts and a malformed CIDR
string fails fast. -/
theorem C7_cidr_enumeration_witness :
    (hostsOf 167772160 24).length = 2 ^ (32 - 24) - 2 ∧
    scan_network "not-a-cidr" 4028 (fun _ => false) (fun _ => PyVal.null) =
      Except.error "Invalid network format" := by
  constructor
  · exact (C7_cidr_enumeration "10.0.0.0/24").1 167772160 24 (by decide) (by decide)
  · exact (C7_cidr_enumeration "not-a-cidr").2 (by decide) 4028 _ _

/-- A scan record always carries the probed address. -/
theorem recordOfIdentification_ip (ip : String) (port : ℕ)
    (t : Option String × Option String × Bool) :
    (recordOfIdentification ip port t).ip_address = ip := by
  obtain ⟨m, mo, b⟩ := t
  cases b <;> rfl

/-- Counterexample to claim C6: scanning two candidate addresses of
which only one has the port open yields a single record — the closed
address gets no DeviceRecord at all, so the output is not the full list
for the scanned range. -/
theorem C6_counterexample :
    scan_records 4028 (fun _ => PyVal.null) ["10.0.0.1", "10.0.0.2"]
      (fun ip => ip == "10.0.0.1") =
      [DeviceRecord.mk "10.0.0.1" 4028 Option.none Option.none false
        (some "Could not identify miner type")] ∧
    (scan_records 4028 (fun _ => PyVal.null) ["10.0.0.1", "10.0.0.2"]
      (fun ip => ip == "10.0.0.1")).length ≠ 2 := by
  constructor
  · simp [scan_records, identify_miner, identifyInner, pyTruthy, recordOfIdentification]
  · simp [scan_records, identify_miner, identifyInner, pyTruthy, recordOfIdentification]

/-- Claim C6 as amended: the scanner returns exactly one DeviceRecord
per address whose reachability probe succeeded — addresses whose probe
failed are omitted — and every record not marked accessible carries the
identification-failure reason. -/
theorem C6_scan_output (port : ℕ) (respond : String → PyVal)
    (hosts : List String) (portOpen : String → Bool) :
    (scan_records port respond hosts portOpen).map DeviceRecord.ip_address =
      hosts.filter portOpen ∧
    ∀ r ∈ scan_records port respond hosts portOpen,
      r.is_accessible = false → r.error = some "Could not identify miner type" := by
  constructor
  · unfold scan_records
    generalize hosts.filter portOpen = l
    induction l with
    | nil => rfl
    | cons a t ih => simp [recordOfIdentification_ip, ih]
  · intro r hr hacc
    simp only [scan_records, List.mem_map] at hr
    obtain ⟨ip, _, rfl⟩ := hr
    rcases hid : identify_miner (respond ip) with ⟨m, mo, b⟩
    cases b with
    | false => simp [recordOfIdentification, hid]
    | true => simp [recordOfIdentification, hid] at hacc

/-- Witness for C6 at a concrete scan. -/
theorem C6_scan_output_witness :
    (scan_records 4028 (fun _ => PyVal.null) ["10.0.0.7"] (fun _ => true)).map
      DeviceRecord.ip_address = ["10.0.0.7"] ∧
    (recordOfIdentification "10.0.0.7" 4028 (identify_miner PyVal.null)).error =
      some "Could not identify miner type" := by
  constructor
  · exact (C6_scan_output 4028 (fun _ => PyVal.null) ["10.0.0.7"] (fun _ => true)).1
  · exact (C6_scan_output 4028 (fun _ => PyVal.null) ["10.0.0.7"] (fun _ => true)).2
      _ (by simp [scan_records]) (by simp [recordOfIdentification, identify_miner,
        identifyInner, pyTruthy])

/-- Claim C5: a reachable device whose summary response is truthy but
matches no vendor signature (no "Type" field, or a "Type" string
containing neither "whatsminer" nor "m" once lower-cased) is marked
accessible with manufacturer "Unknown"; a device whose summary fetch
fails (client returns None) is marked inaccessible and its scan record
carries the failure reason. -/
theorem C5_unknown_vs_unreachable (d : List (String × PyVal)) (ip : String) (port : ℕ)
    (hne : pyTruthy (PyVal.dict d) = true)
    (hnm : ∀ tv, dictLookup d "Type" = some tv →
      strContainsSub (strLower (pyStrOf tv)) "whatsminer" = false ∧
      strContainsSub (strLower (pyStrOf tv)) "m" = false) :
    identify_miner (PyVal.dict d) = (some "Unknown", Option.none, true) ∧
    identify_miner PyVal.null = (Option.none, Option.none, false) ∧
    recordOfIdentification ip port (identify_miner PyVal.null) =
      DeviceRecord.mk ip port Option.none Option.none false
        (some "Could not identify miner type") := by
  refine ⟨?_, rfl, rfl⟩
  unfold identify_miner identifyInner
  rw [hne]
  cases hl : dictLookup d "Type" with
  | none => simp [keyInExc, hl]
  | some tv => simp [keyInExc, pyGet, hl, (hnm tv hl).1, (hnm tv hl).2]

/-- Witness for C5 at a concrete unmatched response. -/
theorem C5_unknown_vs_unreachable_witness :
    identify_miner (PyVal.dict [("When", PyVal.num 1)]) =
      (some "Unknown", Option.none, true) :=
  (C5_unknown_vs_unreachable [("When", PyVal.num 1)] "10.0.0.7" 4028
    (by simp [pyTruthy])
    (by intro tv h; simp [dictLookup] at h)).1

/-- Counterexample to claim C3: the same data object behind the
category key parses differently in the two wire shapes — wrapped in a
single-element list the share counter is extracted, bare it is replaced
by the empty payload with default fields — so `parse_summary_data` does
not accept both shapes. -/
theorem C3_counterexample :
    parse_summary_data
        (PyVal.dict [("SUMMARY", PyVal.list [PyVal.dict [("Accepted", PyVal.num 7)]])]) =
      Except.ok (some (SummaryRec.mk 0 7 0 0 [("Accepted", PyVal.num 7)])) ∧
    parse_summary_data (PyVal.dict [("SUMMARY", PyVal.dict [("Accepted", PyVal.num 7)])]) =
      Except.ok (some (SummaryRec.mk 0 0 0 0 [])) ∧
    (SummaryRec.mk 0 (7 : ℤ) 0 0 [("Accepted", PyVal.num 7)]).accepted_shares ≠
      (SummaryRec.mk 0 (0 : ℤ) 0 0 []).accepted_shares := by
  refine ⟨?_, ?_, by decide⟩
  · simp [parse_summary_data, pyTruthy, dictLookup, parseSummaryPayload, asDict,
      summaryHashRate, intField, pyInt, ratTrunc]
  · simp [parse_summary_data, pyTruthy, dictLookup]

/-- Claim C3 as amended: the agent-side payload selection accepts both
wire shapes — single-element list and bare object — and yields the same
data object from either, for the summary and the stats categories
alike; the central-service `parse_summary_data`, by contrast, treats a
bare (non-list) data object as the empty payload whose fields all
default. -/
theorem C3_both_wire_shapes (x : PyVal) (hx : pyTruthy x = true)
    (hnl : ∀ xs, x ≠ PyVal.list xs) :
    agentSummaryPayload (PyVal.dict [("SUMMARY", PyVal.list [x])]) = x ∧
    agentSummaryPayload (PyVal.dict [("SUMMARY", x)]) = x ∧
    agentStatsPayload (PyVal.dict [("STATS", PyVal.list [x])]) = x ∧
    agentStatsPayload (PyVal.dict [("STATS", x)]) = x ∧
    parse_summary_data (PyVal.dict [("SUMMARY", x)]) =
      Except.ok (some (SummaryRec.mk 0 0 0 0 [])) := by
  refine ⟨?_, ?_, ?_, ?_, ?_⟩
  · simp [agentSummaryPayload, dictLookup, pyTruthy]
  · cases x with
    | list xs => exact absurd rfl (hnl xs)
    | null => simp [pyTruthy] at hx
    | bool b => simp [agentSummaryPayload, dictLookup, hx]
    | num q => simp [agentSummaryPayload, dictLookup, hx]
    | str s => simp [agentSummaryPayload, dictLookup, hx]
    | dict d => simp [agentSummaryPayload, dictLookup, hx]
  · simp [agentStatsPayload, dictLookup, pyTruthy]
  · cases x with
    | list xs => exact absurd rfl (hnl xs)
    | null => simp [pyTruthy] at hx
    | bool b => simp [agentStatsPayload, dictLookup, hx]
    | num q => simp [agentStatsPayload, dictLookup, hx]
    | str s => simp [agentStatsPayload, dictLookup, hx]
    | dict d => simp [agentStatsPayload, dictLookup, hx]
  · cases x with
    | list xs => exact absurd rfl (hnl xs)
    | null => simp [pyTruthy] at hx
    | bool b => simp [parse_summary_data, pyTruthy, dictLookup]
    | num q => simp [parse_summary_data, pyTruthy, dictLookup]
    | str s => simp [parse_summary_data, pyTruthy, dictLookup]
    | dict d => simp [parse_summary_data, pyTruthy, dictLookup]

/-- Witness for C3 at a concrete data object. -/
theorem C3_both_wire_shapes_witness :
    agentSummaryPayload
        (PyVal.dict [("SUMMARY", PyVal.list [PyVal.dict [("Accepted", PyVal.num 7)]])]) =
      PyVal.dict [("Accepted", PyVal.num 7)] ∧
    agentSummaryPayload (PyVal.dict [("SUMMARY", PyVal.dict [("Accepted", PyVal.num 7)])]) =
      PyVal.dict [("Accepted", PyVal.num 7)] := by
  have h := C3_both_wire_shapes (PyVal.dict [("Accepted", PyVal.num 7)])
    (by simp [pyTruthy]) (by rintro xs ⟨⟩)
  exact ⟨h.1, h.2.1⟩

/-- Counterexample to claim C4: a summary payload whose share counter
holds the non-numeric value "abc" makes the whole summary parse raise
`ValueError` — the field does not degrade to an absent value and the
parse does fail. -/
theorem C4_counterexample :
    parse_summary_data
        (PyVal.dict [("SUMMARY", PyVal.list [PyVal.dict [("Accepted", PyVal.str "abc")]])]) =
      Except.error "ValueError" := by
  simp [parse_summary_data, pyTruthy, dictLookup, parseSummaryPayload, asDict,
    summaryHashRate, intField, pyInt, parseIntStr, stripWs]

/-- Claim C4 as amended: a missing share counter, pool-switch counter or
hash-rate field defaults to zero — a present value, not an absent one —
and the parse does not fail; a present non-numeric value in one of these
fields aborts the whole summary parse with an exception instead of
degrading that field. -/
theorem C4_missing_vs_nonnumeric (sd : List (String × PyVal))
    (hg : dictLookup sd "GHS 5s" = Option.none)
    (hga : dictLookup sd "GHS av" = Option.none)
    (ha : dictLookup sd "Accepted" = Option.none)
    (hr : dictLookup sd "Rejected" = Option.none)
    (hp : dictLookup sd "Pool Switches" = Option.none) :
    parse_summary_data (PyVal.dict [("SUMMARY", PyVal.list [PyVal.dict sd])]) =
      Except.ok (some (SummaryRec.mk 0 0 0 0 sd)) ∧
    ∀ v, pyInt v = Option.none →
      parse_summary_data
          (PyVal.dict [("SUMMARY", PyVal.list [PyVal.dict (("Accepted", v) :: sd)])]) =
        Except.error "ValueError" := by
  constructor
  · simp [parse_summary_data, pyTruthy, dictLookup, parseSummaryPayload, asDict,
      summaryHashRate, intField, pyInt, ratTrunc, hg, hga, ha, hr, hp]
  · intro v hv
    simp [parse_summary_data, pyTruthy, dictLookup, parseSummaryPayload, asDict,
      summaryHashRate, intField, hg, hga, hv]

/-- Witness for C4 at concrete payloads. -/
theorem C4_missing_vs_nonnumeric_witness :
    parse_summary_data (PyVal.dict [("SUMMARY", PyVal.list [PyVal.dict []])]) =
      Except.ok (some (SummaryRec.mk 0 0 0 0 [])) ∧
    parse_summary_data
        (PyVal.dict [("SUMMARY", PyVal.list [PyVal.dict [("Accepted", PyVal.str "abc")]])]) =
      Except.error "ValueError" := by
  have h := C4_missing_vs_nonnumeric [] rfl rfl rfl rfl rfl
  exact ⟨h.1, h.2 (PyVal.str "abc") (by decide)⟩

/-- Mapping rationals into `PyVal.num` and extracting them back is the
identity, so `max()` over an all-numeric list sees exactly the numbers. -/
theorem extractNums_map (l : List ℚ) : extractNums (l.map PyVal.num) = some l := by
  induction l with
  | nil => rfl
  | cons q t ih => simp [extractNums, ih]

/-- Python `max` over a non-empty all-numeric list is the maximum fold. -/
theorem pyListMax_nums (q : ℚ) (t : List ℚ) :
    pyListMax (PyVal.num q :: t.map PyVal.num) = Except.ok (PyVal.num (t.foldl max q)) := by
  have h : extractNums (PyVal.num q :: t.map PyVal.num) = some (q :: t) := by
    simp [extractNums, extractNums_map]
  simp [pyListMax, h]

/-- Counterexample to claim C2: the list form `[55, 60, 58]` of a stats
temperature parses to 60, but the string form `"55 60 58"` of the same
readings makes the same parse raise `ValueError` — the two
representations do not agree. -/
theorem C2_counterexample :
    parse_stats_data
        (PyVal.dict [("STATS", PyVal.list [PyVal.dict
          [("temperature", PyVal.list [PyVal.num 55, PyVal.num 60, PyVal.num 58])]])]) =
      Except.ok (some (StatsRec.mk (some 60) Option.none Option.none
        (PyVal.dict [("temperature",
          PyVal.list [PyVal.num 55, PyVal.num 60, PyVal.num 58])]))) ∧
    parse_stats_data
        (PyVal.dict [("STATS", PyVal.list [PyVal.dict
          [("temperature", PyVal.str "55 60 58")]])]) =
      Except.error "ValueError" := by
  constructor
  · simp [parse_stats_data, pyTruthy, dictLookup, pyLastIndex, statsTemperature,
      statsFan, statsPower, keyInExc, pyGet, pyLen, pyListMax, extractNums, pyFloat,
      max_def]
    norm_num
  · simp [parse_stats_data, pyTruthy, dictLookup, pyLastIndex, statsTemperature,
      keyInExc, pyGet, pyLen, pyFloat, parseFloatStr, stripWs, parseFloatBody]

/-- Claim C2 as amended: in `parse_stats_data` only the list form is
handled — a non-empty all-numeric list parses to its maximum, while the
space-delimited string form raises `ValueError` at the `float` call and
a bare number raises `TypeError` at the `len` call; the agent-side
extraction conversely parses the string form to the maximum of its
digit tokens but yields an absent value for the list form, whose
rendered tokens carry brackets and commas.  No parsing site accepts
both representations. -/
theorem C2_temperature_representations (q : ℚ) (t : List ℚ) :
    statsTemperature (PyVal.dict [("temperature",
        PyVal.list (PyVal.num q :: t.map PyVal.num))]) =
      Except.ok (some (t.foldl max q)) ∧
    statsTemperature (PyVal.dict [("temperature", PyVal.str "55 60 58")]) =
      Except.error "ValueError" ∧
    statsTemperature (PyVal.dict [("temperature", PyVal.num 60)]) =
      Except.error "TypeError" ∧
    agentTemp (PyVal.dict [("temp", PyVal.str "55 60 58")]) = some 60 ∧
    agentTemp (PyVal.dict [("temp",
      PyVal.list [PyVal.num 55, PyVal.num 60, PyVal.num 58])]) = Option.none := by
  refine ⟨?_, ?_, ?_, ?_, ?_⟩
  · simp [statsTemperature, keyInExc, dictLookup, pyGet, pyTruthy, pyLen,
      pyListMax_nums, pyFloat]
  · simp [statsTemperature, keyInExc, dictLookup, pyGet, pyTruthy, pyLen,
      pyFloat, parseFloatStr, stripWs, parseFloatBody]
  · norm_num [statsTemperature, keyInExc, dictLookup, pyGet, pyTruthy, pyLen]
  · decide
  · decide

/-- Counterexample to claim C8: a single-device cycle whose one device
fails at the wire level (both commands time out, the client returns
None for each) is recorded as 1 success and 0 failures — the empty
payloads parse to default records and a stats row is still written — so
a cycle over N devices with one unreachable device does not yield N−1
successes and a failure count of 1. -/
theorem C8_counterexample :
    poll_all_miners [PollEnv.mk PyVal.null PyVal.null true true] = (1, 0) ∧
    ((1 : ℕ), (0 : ℕ)) ≠ ((0 : ℕ), (1 : ℕ)) := by
  constructor
  · simp [poll_all_miners, poll_miner, pollMinerInner, get_all_data,
      parse_summary_data, parse_stats_data, pyTruthy]
  · decide

/-- Claim C8 as amended: per-device failures never escape — an exception
inside `poll_miner` is converted to a `False` result and a device absent
from the live registry also yields `False` — and a cycle in which
exactly one device yields `False` produces N−1 successes and a failure
count of 1; but a device that fails at the wire level (timeout,
connection refused, or an unparseable response, all surfaced by the
client as None payloads) is counted as a success with empty telemetry,
not as a failure. -/
theorem C8_failure_isolation :
    poll_miner (PollEnv.mk PyVal.null PyVal.null true true) = true ∧
    (∀ e : PollEnv, e.inRegistry = false → poll_miner e = false) ∧
    (∀ (e : PollEnv) (err : String),
      pollMinerInner e = Except.error err → poll_miner e = false) ∧
    (∀ es : List PollEnv, (es.map poll_miner).count false = 1 →
      poll_all_miners es = (es.length - 1, 1)) := by
  refine ⟨?_, ?_, ?_, ?_⟩
  · simp [poll_miner, pollMinerInner, get_all_data, parse_summary_data,
      parse_stats_data, pyTruthy]
  · intro e he
    simp only [poll_miner, pollMinerInner, get_all_data]
    cases parse_summary_data e.summaryResp with
    | error err => simp
    | ok sp =>
      cases parse_stats_data e.statsResp with
      | error err => simp
      | ok tp => simp [he]
  · intro e err h
    simp [poll_miner, h]
  · intro es h
    have h2 := count_true_add_count_false (es.map poll_miner)
    rw [List.length_map] at h2
    simp only [poll_all_miners, Prod.mk.injEq]
    omega

/-- Witness for C8: a two-device cycle with one registry miss yields one
success and one failure. -/
theorem C8_failure_isolation_witness :
    poll_all_miners [PollEnv.mk PyVal.null PyVal.null true true,
      PollEnv.mk PyVal.null PyVal.null false true] = (1, 1) := by
  have h := C8_failure_isolation.2.2.2
    [PollEnv.mk PyVal.null PyVal.null true true,
      PollEnv.mk PyVal.null PyVal.null false true]
    (by simp [poll_miner, pollMinerInner, get_all_data, parse_summary_data,
      parse_stats_data, pyTruthy])
  simpa using h

/-- A nonnegative field value yields a nonnegative `float` reading. -/
theorem fieldOk_float {v : PyVal} {q : ℚ} (h : fieldOk v = true)
    (hf : pyFloat v = some q) : 0 ≤ q := by
  unfold fieldOk at h
  rw [hf] at h
  simp at h
  exact h.1

/-- A nonnegative field value yields a nonnegative `int` reading. -/
theorem fieldOk_int {v : PyVal} {z : ℤ} (h : fieldOk v = true)
    (hz : pyInt v = some z) : 0 ≤ z := by
  unfold fieldOk at h
  rw [hz] at h
  simp at h
  exact h.2

/-- `valOk` covers the value itself. -/
theorem valOk_fieldOk {v : PyVal} (h : valOk v = true) : fieldOk v = true := by
  simp only [valOk, Bool.and_eq_true] at h
  exact h.1

/-- `valOk` of a list covers every element. -/
theorem valOk_list {xs : List PyVal} {x : PyVal} (h : valOk (PyVal.list xs) = true)
    (hx : x ∈ xs) : fieldOk x = true := by
  simp only [valOk, Bool.and_eq_true, List.all_eq_true] at h
  exact h.2 x hx

/-- Every rational extracted by `extractNums` wraps an element. -/
theorem extractNums_elts :
    ∀ {xs : List PyVal} {qs : List ℚ}, extractNums xs = some qs →
      ∀ q ∈ qs, PyVal.num q ∈ xs := by
  intro xs
  induction xs with
  | nil =>
    intro qs h q hq
    simp [extractNums] at h
    subst h
    simp at hq
  | cons x rest ih =>
    intro qs h q hq
    cases x with
    | num q0 =>
      simp only [extractNums, Option.map_eq_some'] at h
      obtain ⟨t, ht, rfl⟩ := h
      rcases List.mem_cons.mp hq with rfl | hq2
      · exact List.mem_cons_self _ _
      · exact List.mem_cons_of_mem _ (ih ht q hq2)
    | null => simp [extractNums] at h
    | bool b => simp [extractNums] at h
    | str s => simp [extractNums] at h
    | list ys => simp [extractNums] at h
    | dict d => simp [extractNums] at h

/-- Every string extracted by `extractStrs` wraps an element. -/
theorem extractStrs_elts :
    ∀ {xs : List PyVal} {ss : List String}, extractStrs xs = some ss →
      ∀ s ∈ ss, PyVal.str s ∈ xs := by
  intro xs
  induction xs with
  | nil =>
    intro ss h s hs
    simp [extractStrs] at h
    subst h
    simp at hs
  | cons x rest ih =>
    intro ss h s hs
    cases x with
    | str s0 =>
      simp only [extractStrs, Option.map_eq_some'] at h
      obtain ⟨t, ht, rfl⟩ := h
      rcases List.mem_cons.mp hs with rfl | hs2
      · exact List.mem_cons_self _ _
      · exact List.mem_cons_of_mem _ (ih ht s hs2)
    | null => simp [extractStrs] at h
    | bool b => simp [extractStrs] at h
    | num q => simp [extractStrs] at h
    | list ys => simp [extractStrs] at h
    | dict d => simp [extractStrs] at h

/-- Python `max` over a list of nonnegative-reading values returns a
value with nonnegative readings. -/
theorem pyListMax_fieldOk {xs : List PyVal} {m : PyVal}
    (h : pyListMax xs = Except.ok m) (hall : ∀ x ∈ xs, fieldOk x = true) :
    fieldOk m = true := by
  unfold pyListMax at h
  cases hn : extractNums xs with
  | some qs =>
    rw [hn] at h
    cases qs with
    | nil => simp at h
    | cons q t =>
      simp only [Except.ok.injEq] at h
      have hq : ∀ r ∈ q :: t, (0 : ℚ) ≤ r := by
        intro r hr
        exact fieldOk_float (hall _ (extractNums_elts hn r hr)) (by simp [pyFloat])
      have hfold : 0 ≤ t.foldl max q :=
        foldl_max_nonneg t q (hq q (List.mem_cons_self _ _))
          fun x hx => hq x (List.mem_cons_of_mem _ hx)
      have hfloor : (0 : ℤ) ≤ ⌊t.foldl max q⌋ := Int.floor_nonneg.mpr hfold
      rw [← h]
      simp [fieldOk, pyFloat, pyInt, ratTrunc, hfold, hfloor]
  | none =>
    rw [hn] at h
    cases hs : extractStrs xs with
    | some ss =>
      rw [hs] at h
      cases ss with
      | nil => simp at h
      | cons s t =>
        simp only [Except.ok.injEq] at h
        have hpick := foldl_pick_mem t s
        rw [← h]
        rcases hpick with he | he
        · rw [he]
          exact hall _ (extractStrs_elts hs s (List.mem_cons_self _ _))
        · exact hall _ (extractStrs_elts hs _ (List.mem_cons_of_mem _ he))
    | none =>
      rw [hs] at h
      simp at h

/-- A successful hash-rate extraction is the default 0 or the `float`
of one of the two hash-rate fields. -/
theorem summaryHashRate_cases {sd : List (String × PyVal)} {hr : ℚ}
    (h : summaryHashRate sd = Except.ok hr) :
    hr = 0 ∨ ∃ v, (dictLookup sd "GHS 5s" = some v ∨ dictLookup sd "GHS av" = some v) ∧
      pyFloat v = some hr := by
  unfold summaryHashRate at h
  split at h
  next v heq =>
    split at h
    next q hf =>
      simp only [Except.ok.injEq] at h
      subst h
      exact Or.inr ⟨v, Or.inl heq, hf⟩
    next hf => simp at h
  next heq =>
    split at h
    next v heq2 =>
      split at h
      next q hf =>
        simp only [Except.ok.injEq] at h
        subst h
        exact Or.inr ⟨v, Or.inr heq2, hf⟩
      next hf => simp at h
    next heq2 =>
      simp only [Except.ok.injEq] at h
      exact Or.inl h.symm

/-- A successful counter extraction is the default 0 or the `int` of
the present field value. -/
theorem intField_cases {sd : List (String × PyVal)} {k : String} {z : ℤ}
    (h : intField sd k = Except.ok z) :
    z = 0 ∨ ∃ v, dictLookup sd k = some v ∧ pyInt v = some z := by
  unfold intField at h
  split at h
  next z0 hi =>
    simp only [Except.ok.injEq] at h
    subst h
    cases hl : dictLookup sd k with
    | some v =>
      rw [hl] at hi
      simp only [Option.getD_some] at hi
      exact Or.inr ⟨v, rfl, hi⟩
    | none =>
      rw [hl] at hi
      simp only [Option.getD_none] at hi
      have h0 : pyInt (PyVal.num 0) = some 0 := by simp [pyInt, ratTrunc]
      rw [h0] at hi
      exact Or.inl (Option.some.inj hi).symm
  next hi => simp at h

/-- Inversion of a successful payload parse: the record fields are the
extractions of its own raw payload. -/
theorem parseSummaryPayload_inv {x : PyVal} {r : SummaryRec}
    (h : parseSummaryPayload x = Except.ok (some r)) :
    summaryHashRate r.raw_data = Except.ok r.hash_rate ∧
    intField r.raw_data "Accepted" = Except.ok r.accepted_shares ∧
    intField r.raw_data "Rejected" = Except.ok r.rejected_shares ∧
    intField r.raw_data "Pool Switches" = Except.ok r.pool_switches := by
  unfold parseSummaryPayload at h
  split at h
  next e hd => simp at h
  next sd hd =>
    split at h
    next e hh => simp at h
    next hr hh =>
      split at h
      next e ha => simp at h
      next a ha =>
        split at h
        next e hrj => simp at h
        next rj hrj =>
          split at h
          next e hp => simp at h
          next ps hp =>
            simp only [Except.ok.injEq, Option.some.injEq] at h
            subst h
            exact ⟨hh, ha, hrj, hp⟩

/-- Inversion of a successful summary parse: the record is either the
all-default record produced for a non-list category value, or the
field-wise extraction of its own raw payload. -/
theorem parse_summary_inv {s : PyVal} {r : SummaryRec}
    (h : parse_summary_data s = Except.ok (some r)) :
    (r.hash_rate = 0 ∧ r.accepted_shares = 0 ∧ r.rejected_shares = 0 ∧
      r.pool_switches = 0) ∨
    (summaryHashRate r.raw_data = Except.ok r.hash_rate ∧
      intField r.raw_data "Accepted" = Except.ok r.accepted_shares ∧
      intField r.raw_data "Rejected" = Except.ok r.rejected_shares ∧
      intField r.raw_data "Pool Switches" = Except.ok r.pool_switches) := by
  unfold parse_summary_data at h
  split at h
  · simp at h
  · split at h
    · next d =>
      split at h
      · simp at h
      · simp at h
      · next x xt heq => exact Or.inr (parseSummaryPayload_inv h)
      · next sv heq h1 h2 =>
        simp only [Except.ok.injEq, Option.some.injEq] at h
        subst h
        exact Or.inl ⟨rfl, rfl, rfl, rfl⟩
    · next s0 =>
      split at h <;> simp at h
    · next xs =>
      split at h <;> simp at h
    · next x h1 h2 h3 => simp at h

/-- A successful `.get` call pins the receiver to a dict and returns the
looked-up value (or the default). -/
theorem pyGet_ok {v : PyVal} {k : String} {dflt w : PyVal}
    (h : pyGet v k dflt = Except.ok w) :
    ∃ d, v = PyVal.dict d ∧ (dictLookup d k).getD dflt = w := by
  cases v with
  | dict d =>
    simp only [pyGet, Except.ok.injEq] at h
    exact ⟨d, rfl, h⟩
  | null => simp [pyGet] at h
  | bool b => simp [pyGet] at h
  | num q => simp [pyGet] at h
  | str s => simp [pyGet] at h
  | list xs => simp [pyGet] at h

/-- A positive key test on a dict means the key is bound. -/
theorem keyIn_dict_lookup {d : List (String × PyVal)} {k : String}
    (h : keyInExc (PyVal.dict d) k = Except.ok true) :
    ∃ v, dictLookup d k = some v := by
  simp only [keyInExc, Except.ok.injEq] at h
  exact Option.isSome_iff_exists.mp h

/-- Inversion of a successful stats parse: the record fields are the
extractions of its own raw (latest) payload. -/
theorem parse_stats_inv {s : PyVal} {r : StatsRec}
    (h : parse_stats_data s = Except.ok (some r)) :
    statsTemperature r.raw_data = Except.ok r.temperature ∧
    statsFan r.raw_data = Except.ok r.fan_speed ∧
    statsPower r.raw_data = Except.ok r.power_consumption := by
  unfold parse_stats_data at h
  split at h
  · simp at h
  · split at h
    · next d =>
      split at h
      · simp at h
      · next sv heq =>
        split at h
        · simp at h
        · split at h
          next e hlast => simp at h
          next latest hlast =>
            split at h
            next e htemp => simp at h
            next t htemp =>
              split at h
              next e hfan => simp at h
              next f hfan =>
                split at h
                next e hpow => simp at h
                next p hpow =>
                  simp only [Except.ok.injEq, Option.some.injEq] at h
                  subst h
                  exact ⟨htemp, hfan, hpow⟩
    · next s0 =>
      split at h <;> simp at h
    · next xs =>
      split at h <;> simp at h
    · next x h1 h2 h3 => simp at h

/-- A present temperature of a value-nonnegative payload is nonnegative. -/
theorem statsTemperature_nonneg {latest : PyVal} {q : ℚ}
    (h : statsTemperature latest = Except.ok (some q))
    (hv : ∀ d, latest = PyVal.dict d → ∀ kv ∈ d, valOk kv.2 = true) : 0 ≤ q := by
  unfold statsTemperature at h
  split at h
  next e hk => simp at h
  next hk => simp at h
  next hk =>
      split at h
      next e hg => simp at h
      next temps hg =>
        obtain ⟨d, rfl, hget⟩ := pyGet_ok hg
        obtain ⟨tv, hlook⟩ := keyIn_dict_lookup hk
        rw [hlook] at hget
        simp only [Option.getD_some] at hget
        subst hget
        have hok : valOk tv = true := hv d rfl ("temperature", tv) (dictLookup_mem hlook)
        split at h
        · simp at h
        · split at h
          · simp at h
          · split at h
            · simp at h
            · split at h
              · next xs =>
                split at h
                next e hm => simp at h
                next m hm =>
                  split at h
                  next q0 hf =>
                    simp only [Except.ok.injEq, Option.some.injEq] at h
                    subst h
                    exact fieldOk_float
                      (pyListMax_fieldOk hm fun x hx => valOk_list hok hx) hf
                  next hf => simp at h
              · split at h
                next q0 hf =>
                  simp only [Except.ok.injEq, Option.some.injEq] at h
                  subst h
                  exact fieldOk_float (valOk_fieldOk hok) hf
                next hf => simp at h

/-- A present fan speed of a value-nonnegative payload is nonnegative. -/
theorem statsFan_nonneg {latest : PyVal} {z : ℤ}
    (h : statsFan latest = Except.ok (some z))
    (hv : ∀ d, latest = PyVal.dict d → ∀ kv ∈ d, valOk kv.2 = true) : 0 ≤ z := by
  unfold statsFan at h
  split at h
  next e hk => simp at h
  next hk => simp at h
  next hk =>
    split at h
    next e hg => simp at h
    next fans hg =>
      obtain ⟨d, rfl, hget⟩ := pyGet_ok hg
      obtain ⟨tv, hlook⟩ := keyIn_dict_lookup hk
      rw [hlook] at hget
      simp only [Option.getD_some] at hget
      subst hget
      have hok : valOk tv = true := hv d rfl ("fan", tv) (dictLookup_mem hlook)
      split at h
      · simp at h
      · split at h
        · simp at h
        · split at h
          · simp at h
          · split at h
            · next xs =>
              split at h
              next e hm => simp at h
              next m hm =>
                split at h
                next z0 hi =>
                  simp only [Except.ok.injEq, Option.some.injEq] at h
                  subst h
                  exact fieldOk_int
                    (pyListMax_fieldOk hm fun x hx => valOk_list hok hx) hi
                next hi => simp at h
            · split at h
              next z0 hi =>
                simp only [Except.ok.injEq, Option.some.injEq] at h
                subst h
                exact fieldOk_int (valOk_fieldOk hok) hi
              next hi => simp at h

/-- A present power reading of a value-nonnegative payload is
nonnegative. -/
theorem statsPower_nonneg {latest : PyVal} {q : ℚ}
    (h : statsPower latest = Except.ok (some q))
    (hv : ∀ d, latest = PyVal.dict d → ∀ kv ∈ d, valOk kv.2 = true) : 0 ≤ q := by
  unfold statsPower at h
  split at h
  next e hk => simp at h
  next hk => simp at h
  next hk =>
    split at h
    next e hg => simp at h
    next pv hg =>
      obtain ⟨d, rfl, hget⟩ := pyGet_ok hg
      obtain ⟨tv, hlook⟩ := keyIn_dict_lookup hk
      rw [hlook] at hget
      simp only [Option.getD_some] at hget
      subst hget
      have hok : valOk tv = true := hv d rfl ("power", tv) (dictLookup_mem hlook)
      split at h
      next q0 hf =>
        simp only [Except.ok.injEq, Option.some.injEq] at h
        subst h
        exact fieldOk_float (valOk_fieldOk hok) hf
      next hf => simp at h

/-- Counterexample to claim C9: a device reporting the negative value
-5 in "GHS 5s" parses to a present hash rate of -5, a present negative
field. -/
theorem C9_counterexample :
    parse_summary_data
        (PyVal.dict [("SUMMARY", PyVal.list [PyVal.dict [("GHS 5s", PyVal.num (-5))]])]) =
      Except.ok (some (SummaryRec.mk (-5) 0 0 0 [("GHS 5s", PyVal.num (-5))])) ∧
    (SummaryRec.mk (-5 : ℚ) 0 0 0 [("GHS 5s", PyVal.num (-5))]).hash_rate < 0 := by
  constructor
  · simp [parse_summary_data, pyTruthy, dictLookup, parseSummaryPayload, asDict,
      summaryHashRate, intField, pyInt, pyFloat, ratTrunc]
  · norm_num

/-- Claim C9 as amended: the parsers pass device-reported numbers
through unchanged and do not themselves enforce a sign, so every
produced numeric field — hash rate, share counters, fan speed, power —
is absent or nonnegative provided the raw response reports nonnegative
values. -/
theorem C9_fields_nonneg :
    (∀ s r, parse_summary_data s = Except.ok (some r) →
      (∀ kv ∈ r.raw_data, valOk kv.2 = true) →
      0 ≤ r.hash_rate ∧ 0 ≤ r.accepted_shares ∧ 0 ≤ r.rejected_shares ∧
        0 ≤ r.pool_switches) ∧
    (∀ s r, parse_stats_data s = Except.ok (some r) →
      (∀ d, r.raw_data = PyVal.dict d → ∀ kv ∈ d, valOk kv.2 = true) →
      (∀ q, r.temperature = some q → 0 ≤ q) ∧
      (∀ z, r.fan_speed = some z → 0 ≤ z) ∧
      (∀ q, r.power_consumption = some q → 0 ≤ q)) := by
  constructor
  · intro s r hp hv
    rcases parse_summary_inv hp with ⟨h1, h2, h3, h4⟩ | ⟨h1, h2, h3, h4⟩
    · rw [h1, h2, h3, h4]
      exact ⟨le_refl 0, le_refl 0, le_refl 0, le_refl 0⟩
    · have f1 : 0 ≤ r.hash_rate := by
        rcases summaryHashRate_cases h1 with h0 | ⟨v, hl, hf⟩
        · rw [h0]
        · rcases hl with hl | hl
          · exact fieldOk_float (valOk_fieldOk (hv _ (dictLookup_mem hl))) hf
          · exact fieldOk_float (valOk_fieldOk (hv _ (dictLookup_mem hl))) hf
      have fint : ∀ (k : String) (z : ℤ), intField r.raw_data k = Except.ok z → 0 ≤ z := by
        intro k z hk
        rcases intField_cases hk with h0 | ⟨v, hl, hi⟩
        · rw [h0]
        · exact fieldOk_int (valOk_fieldOk (hv _ (dictLookup_mem hl))) hi
      exact ⟨f1, fint _ _ h2, fint _ _ h3, fint _ _ h4⟩
  · intro s r hp hv
    obtain ⟨h1, h2, h3⟩ := parse_stats_inv hp
    refine ⟨?_, ?_, ?_⟩
    · intro q hq
      rw [hq] at h1
      exact statsTemperature_nonneg h1 hv
    · intro z hz
      rw [hz] at h2
      exact statsFan_nonneg h2 hv
    · intro q hq
      rw [hq] at h3
      exact statsPower_nonneg h3 hv

/-- Witness for C9 at concrete nonnegative responses. -/
theorem C9_fields_nonneg_witness :
    0 ≤ (SummaryRec.mk 0 3 0 0 [("Accepted", PyVal.num 3)]).accepted_shares ∧
    0 ≤ (60 : ℚ) := by
  constructor
  · exact (C9_fields_nonneg.1
      (PyVal.dict [("SUMMARY", PyVal.list [PyVal.dict [("Accepted", PyVal.num 3)]])])
      (SummaryRec.mk 0 3 0 0 [("Accepted", PyVal.num 3)])
      (by simp [parse_summary_data, pyTruthy, dictLookup, parseSummaryPayload, asDict,
        summaryHashRate, intField, pyInt, ratTrunc])
      (by intro kv hkv
          simp only [List.mem_singleton] at hkv
          subst hkv
          simp [valOk, fieldOk, pyFloat, pyInt, ratTrunc])).2.1
  · exact ((C9_fields_nonneg.2
      (PyVal.dict [("STATS", PyVal.list [PyVal.dict
        [("temperature", PyVal.list [PyVal.num 60])]])])
      (StatsRec.mk (some 60) Option.none Option.none
        (PyVal.dict [("temperature", PyVal.list [PyVal.num 60])]))
      (by simp [parse_stats_data, pyTruthy, dictLookup, pyLastIndex, statsTemperature,
        statsFan, statsPower, keyInExc, pyGet, pyLen, pyListMax, extractNums, pyFloat])
      (by intro d hd kv hkv
          simp only [PyVal.dict.injEq] at hd
          subst hd
          simp only [List.mem_singleton] at hkv
          subst hkv
          simp [valOk, fieldOk, pyFloat, pyInt, ratTrunc])).1 60 rfl)
